import Mathlib

/-!
Verification development for the `bearable-desktop-instagram` content script
(`src/content.js`). The script is single-threaded and event-driven; its
stateful pieces (the timestamp store, the preference store, the DOM around an
enhanced video) are embedded as explicit state types, and each event handler
or function becomes a pure state transformer translated line by line from the
source. JavaScript numbers are modelled by `ℚ`, with `Option ℚ` (`JsNum`)
where `NaN` can arise; JS truthiness of a number is `≠ 0` (and `NaN` is
falsy, i.e. `none` is falsy).
-/

/-- A JavaScript number that may be `NaN`: `none` models `NaN`. -/
abbrev JsNum := Option ℚ

/-- JS truthiness of a number: `0` and `NaN` are falsy, everything else truthy. -/
def jsTruthyNum (n : JsNum) : Bool :=
  match n with
  | none => false
  | some q => q != 0

/-- Numeric value of a digit string (most significant first). -/
def digitCharsVal (l : List Char) : Nat :=
  l.foldl (fun acc c => acc * 10 + (c.toNat - Char.toNat '0')) 0

/-- Exponent part of a JS float literal: optional sign then digits; an empty
digit run contributes exponent 0 (JS `parseFloat` takes the longest valid
numeric prefix, so a dangling `e` is ignored). -/
def readExpPart (l : List Char) : Int :=
  match l with
  | '-' :: r =>
    let ds := r.takeWhile Char.isDigit
    if ds.isEmpty then 0 else -(digitCharsVal ds : Int)
  | '+' :: r =>
    let ds := r.takeWhile Char.isDigit
    if ds.isEmpty then 0 else (digitCharsVal ds : Int)
  | _ =>
    let ds := l.takeWhile Char.isDigit
    if ds.isEmpty then 0 else (digitCharsVal ds : Int)

/-- Apply a decimal exponent to a rational. -/
def applyExp (q : ℚ) (e : Int) : ℚ :=
  if 0 ≤ e then q * (10 : ℚ) ^ e.toNat else q / (10 : ℚ) ^ (-e).toNat

/-- Model of JavaScript `parseFloat` on a character list: skip leading
whitespace, optional sign, digits, optional fraction, optional exponent;
trailing garbage is ignored; no digit at all yields `NaN` (`none`).
(`Infinity` literals are not modelled; no value in this development uses
them.) -/
def parseFloatChars (l : List Char) : JsNum :=
  let l1 := l.dropWhile (fun c => c = ' ' || c = '\t' || c = '\n' || c = '\r')
  let signAndRest : ℚ × List Char :=
    match l1 with
    | '-' :: r => (-1, r)
    | '+' :: r => (1, r)
    | _ => (1, l1)
  let sgn := signAndRest.1
  let l2 := signAndRest.2
  let intPart := l2.takeWhile Char.isDigit
  let l3 := l2.dropWhile Char.isDigit
  let fracAndRest : List Char × List Char :=
    match l3 with
    | '.' :: r => (r.takeWhile Char.isDigit, r.dropWhile Char.isDigit)
    | _ => ([], l3)
  let fracPart := fracAndRest.1
  let l4 := fracAndRest.2
  if intPart.isEmpty && fracPart.isEmpty then none
  else
    let mant : ℚ :=
      (digitCharsVal intPart : ℚ) +
        (digitCharsVal fracPart : ℚ) / (10 : ℚ) ^ fracPart.length
    let e : Int :=
      match l4 with
      | 'e' :: r => readExpPart r
      | 'E' :: r => readExpPart r
      | _ => 0
    some (applyExp (sgn * mant) e)

/-- `parseFloat` on a string. -/
def parseFloat (s : String) : JsNum :=
  parseFloatChars s.toList

/-- Association-list model of a string-keyed map (`Map` / `chrome.storage` /
`sessionStorage`): lookup returns the first binding. -/
def lookupKey {α : Type} (l : List (String × α)) (k : String) : Option α :=
  match l with
  | [] => none
  | (k', v) :: rest => if k' = k then some v else lookupKey rest k

/-- Remove every binding for a key (`Map.delete` / `removeItem` / `remove`). -/
def eraseKey {α : Type} (l : List (String × α)) (k : String) : List (String × α) :=
  match l with
  | [] => []
  | (k', v) :: rest => if k' = k then eraseKey rest k else (k', v) :: eraseKey rest k

/-- Set a key to a value (`Map.set` / `setItem` / `set`): the new binding
shadows and replaces any old one. -/
def setKey {α : Type} (l : List (String × α)) (k : String) (v : α) : List (String × α) :=
  (k, v) :: eraseKey l k

/-- State of the three storage tiers used by `TimestampStore`:
the in-memory `Map`, the `chrome.storage.session` area (whose availability
flag `chromeOk` models whether calls into it throw), and `sessionStorage`.
`sessionStorage` stores strings in JS; `save` writes `currentTime.toString()`
and the fallback read applies `parseFloat`, which round-trips every JS
number, so the tier's values are modelled numerically. -/
structure TSState where
  timestamps : List (String × ℚ)
  chromeOk : Bool
  chrome : List (String × ℚ)
  session : List (String × ℚ)
deriving DecidableEq, Repr

/-- `TimestampStore.save(postId, currentTime)`: guarded by
`postId && currentTime > 0`; on success writes the in-memory map and then
`chrome.storage.session` under key `ts_<postId>`; if that throws, writes
`sessionStorage` under key `ig_ts_<postId>` instead. -/
def TimestampStore.save (s : TSState) (postId : Option String) (currentTime : ℚ) : TSState :=
  match postId with
  | none => s
  | some k =>
    if k ≠ "" ∧ 0 < currentTime then
      let s1 := { s with timestamps := setKey s.timestamps k currentTime }
      if s1.chromeOk then
        { s1 with chrome := setKey s1.chrome ("ts_" ++ k) currentTime }
      else
        { s1 with session := setKey s1.session ("ig_ts_" ++ k) currentTime }
    else s

/-- `TimestampStore.get(postId)`: returns the retrieved value (or `null`) and
the updated store. Memory is checked first (deleting on hit); else
`chrome.storage.session` is read — on a truthy hit the key is removed and the
value returned, on a clean miss the function returns `null`; only when the
chrome call throws (`chromeOk = false`) is the `sessionStorage` fallback
consulted (removing on hit; a stored string is truthy, hence no zero test
there). -/
def TimestampStore.get (s : TSState) (postId : Option String) : Option ℚ × TSState :=
  match postId with
  | none => (none, s)
  | some k =>
    if k = "" then (none, s)
    else
      match lookupKey s.timestamps k with
      | some t => (some t, { s with timestamps := eraseKey s.timestamps k })
      | none =>
        if s.chromeOk then
          match lookupKey s.chrome ("ts_" ++ k) with
          | some t =>
            if t ≠ 0 then (some t, { s with chrome := eraseKey s.chrome ("ts_" ++ k) })
            else (none, s)
          | none => (none, s)
        else
          match lookupKey s.session ("ig_ts_" ++ k) with
          | some t => (some t, { s with session := eraseKey s.session ("ig_ts_" ++ k) })
          | none => (none, s)

example :
    TimestampStore.save ⟨[], true, [], []⟩ (some "P") 5 =
      ⟨[("P", 5)], true, [("ts_P", 5)], []⟩ := by decide

example :
    (TimestampStore.get ⟨[("P", 5)], true, [("ts_P", 5)], []⟩ (some "P")).1 = some 5 := by
  decide

/-- The `Preferences` object: `_muted` and `_volume` with their compiled-in
defaults `muted = true`, `volume = 1`. The setters also mirror each value
into `sessionStorage` (best effort, errors swallowed); that mirror carries no
behaviour beyond feeding `load`, so the state is the two fields. `_volume`
is a `JsNum` because `load` can install `NaN` via `parseFloat`. -/
structure Preferences where
  muted : Bool
  volume : JsNum
deriving DecidableEq, Repr

/-- The initial `Preferences` values (`_muted: true`, `_volume: 1`). -/
def Preferences.defaults : Preferences :=
  { muted := true, volume := some 1 }

/-- `Preferences.load()`: reads the two raw `sessionStorage` strings
(`none` models an absent key, i.e. `getItem` returning `null`). A present
muted string sets `_muted` to the result of the comparison `muted === 'true'`;
a present volume string sets `_volume` to `parseFloat(volume)`. -/
def Preferences.load (p : Preferences) (mutedStr volumeStr : Option String) : Preferences :=
  let p1 :=
    match mutedStr with
    | some m => { p with muted := m = "true" }
    | none => p
  match volumeStr with
  | some v => { p1 with volume := parseFloat v }
  | none => p1

/-- The audio-relevant state of a `<video>` element. -/
structure AVState where
  muted : Bool
  volume : ℚ
deriving DecidableEq, Repr

/-- The overlay's volume slider `input` listener: assigns
`video.volume = parseFloat(e.target.value)` (range-input values always parse,
so the handler takes the numeric value), then
`video.muted = video.volume === 0`, then persists both into `Preferences`. -/
def volumeInputHandler (v : AVState) (p : Preferences) (value : ℚ) : AVState × Preferences :=
  let v1 := { v with volume := value }
  let v2 := { v1 with muted := v1.volume = 0 }
  let p1 := { p with volume := some v2.volume }
  let p2 := { p1 with muted := v2.muted }
  (v2, p2)

/-- The overlay's mute button `click` listener: flips `video.muted` and
persists the new flag into `Preferences`. -/
def muteBtnHandler (v : AVState) (p : Preferences) : AVState × Preferences :=
  let v1 := { v with muted := !v.muted }
  (v1, { p with muted := v1.muted })

/-- `CONFIG.SEEK_SECONDS`. -/
def CONFIG.SEEK_SECONDS : ℚ := 10

/-- `CONFIG.SEEK_END_BUFFER`. -/
def CONFIG.SEEK_END_BUFFER : ℚ := 1 / 2

/-- `Math.min` on two (non-`NaN`) numbers. -/
def jsMin (a b : ℚ) : ℚ := if a ≤ b then a else b

/-- `Math.max` on two (non-`NaN`) numbers. -/
def jsMax (a b : ℚ) : ℚ := if a ≤ b then b else a

theorem jsMin_eq_min (a b : ℚ) : jsMin a b = min a b := by
  simp [jsMin, min_def]

theorem jsMax_eq_max (a b : ℚ) : jsMax a b = max a b := by
  rcases le_or_lt a b with h | h
  · simp [jsMax, max_def, h]
  · simp [jsMax, max_def, h.not_le, h.le]

/-- The position the restore path assigns:
`Math.min(savedTime, video.duration - CONFIG.SEEK_END_BUFFER)`. -/
def restoredPosition (savedTime duration : ℚ) : ℚ :=
  jsMin savedTime (duration - CONFIG.SEEK_END_BUFFER)

/-- `seekToSaved` from `enhanceVideo`: when
`video.readyState >= 1 && video.duration` holds, `video.currentTime` is set
to `restoredPosition`; otherwise the current time is left as is and the same
assignment is deferred to a one-shot `loadedmetadata` listener (which runs
this very function again with metadata available). `duration` is `NaN`
(`none`) before metadata arrives. -/
def seekToSaved (readyState : Nat) (duration : JsNum) (savedTime currentTime : ℚ) : ℚ :=
  if 1 ≤ readyState ∧ jsTruthyNum duration then
    restoredPosition savedTime (duration.getD 0)
  else currentTime

example : seekToSaved 1 (some 10) 3 0 = 3 := by with_unfolding_all decide
example : seekToSaved 1 (some (1/4)) 1 0 = -(1/4) := by with_unfolding_all decide

/-- The DOM nodes relevant to one enhanced video: the video itself, the
enhancer-created wrapper (class `ig-enhancer-wrapper`), the controls overlay,
and arbitrary host-page siblings. -/
inductive DomNode where
  | video : DomNode
  | wrapper : DomNode
  | overlay : DomNode
  | host : Nat → DomNode
deriving DecidableEq, Repr

/-- `parent.insertBefore(n, t)`: insert `n` immediately before the child `t`
(no effect when `t` is not a child). -/
def insertBeforeNode (children : List DomNode) (n t : DomNode) : List DomNode :=
  match children with
  | [] => []
  | x :: xs => if x = t then n :: x :: xs else x :: insertBeforeNode xs n t

/-- `parent.removeChild(t)` / `t.remove()`: remove the child `t`. -/
def removeNode (children : List DomNode) (t : DomNode) : List DomNode :=
  match children with
  | [] => []
  | x :: xs => if x = t then xs else x :: removeNode xs t

/-- Number of occurrences of a node in a child list. -/
def countNode (children : List DomNode) (t : DomNode) : Nat :=
  match children with
  | [] => 0
  | x :: xs => (if x = t then 1 else 0) + countNode xs t

/-- The DOM state around one video that `enhanceVideo` manipulates:
`origChildren` is the child list of the video's original parent,
`wrapperChildren` the child list of the enhancer wrapper (`[]` while no
wrapper exists). The video's `parentElement` is the wrapper exactly when the
video sits in `wrapperChildren`. `igEnhanced` is the `data-ig-enhanced`
processed marker; `controllerAborted` records whether the overlay's
`AbortController` has been aborted. The preference application and the
timestamp-restore seek that `enhanceVideo` also performs are modelled
separately (`Preferences`, `seekToSaved`). -/
structure EnhState where
  origChildren : List DomNode
  wrapperChildren : List DomNode
  igEnhanced : Bool
  controllerAborted : Bool
deriving DecidableEq, Repr

/-- Whether `video.parentElement` carries the `ig-enhancer-wrapper` class. -/
def videoParentIsWrapper (s : EnhState) : Bool :=
  DomNode.video ∈ s.wrapperChildren

/-- `getVideoContainer(video)`: if the video's parent already is the wrapper,
return it; otherwise create a wrapper, `insertBefore(wrapper, video)` in the
video's parent, then `wrapper.appendChild(video)` (which moves the video out
of its old parent). -/
def getVideoContainer (s : EnhState) : EnhState :=
  if videoParentIsWrapper s then s
  else
    { s with
      origChildren := removeNode (insertBeforeNode s.origChildren .wrapper .video) .video,
      wrapperChildren := s.wrapperChildren ++ [.video] }

/-- `enhanceVideo(video)`: no-op when `video.dataset.igEnhanced` is set; else
set the marker, obtain the container, create the controls overlay (with a
fresh, unaborted `AbortController`) and `container.appendChild(controls)`. -/
def enhanceVideo (s : EnhState) : EnhState :=
  if s.igEnhanced then s
  else
    let s1 := { s with igEnhanced := true }
    let s2 := getVideoContainer s1
    { s2 with
      wrapperChildren := s2.wrapperChildren ++ [.overlay],
      controllerAborted := false }

/-- `video._igEnhancerCleanup()`: abort the overlay's `AbortController`,
remove the controls from their parent (if attached), and when the video's
parent is the enhancer wrapper, `insertBefore(video, wrapper)` in the
wrapper's parent and `wrapper.remove()`. -/
def cleanupVideo (s : EnhState) : EnhState :=
  let s1 := { s with controllerAborted := true }
  let s2 :=
    if DomNode.overlay ∈ s1.wrapperChildren then
      { s1 with wrapperChildren := removeNode s1.wrapperChildren .overlay }
    else if DomNode.overlay ∈ s1.origChildren then
      { s1 with origChildren := removeNode s1.origChildren .overlay }
    else s1
  if videoParentIsWrapper s2 then
    { s2 with
      origChildren := removeNode (insertBeforeNode s2.origChildren .video .wrapper) .wrapper,
      wrapperChildren := removeNode s2.wrapperChildren .video }
  else s2

example :
    enhanceVideo ⟨[.host 0, .video, .host 1], [], false, false⟩ =
      ⟨[.host 0, .wrapper, .host 1], [.video, .overlay], true, false⟩ := by decide

example :
    cleanupVideo ⟨[.host 0, .wrapper, .host 1], [.video, .overlay], true, false⟩ =
      ⟨[.host 0, .video, .host 1], [], true, true⟩ := by decide

/-- A character of the id class `[A-Za-z0-9_-]`. -/
def isIdChar (c : Char) : Bool :=
  c.isAlpha || c.isDigit || c = '_' || c = '-'

/-- Consume an exact literal from the front of the input, or fail. -/
def dropLit (lit l : List Char) : Option (List Char) :=
  match lit, l with
  | [], rest => some rest
  | c :: cs, x :: xs => if x = c then dropLit cs xs else none
  | _ :: _, [] => none

/-- Try the pattern `\/(p|reel)\/([A-Za-z0-9_-]+)` anchored at the current
position (alternatives in regex order), returning the capture group. -/
def matchIdAt (l : List Char) : Option (List Char) :=
  match dropLit ['/'] l with
  | none => none
  | some rest =>
    let afterKind :=
      match dropLit ['p', '/'] rest with
      | some r => some r
      | none => dropLit ['r', 'e', 'e', 'l', '/'] rest
    match afterKind with
    | none => none
    | some r =>
      let idChars := r.takeWhile isIdChar
      if idChars.isEmpty then none else some idChars

/-- `String.prototype.match` with `/\/(p|reel)\/([A-Za-z0-9_-]+)/`: scan
left to right for the first position where the pattern matches and return
capture group 2 (the identifier). -/
def scanIdMatch (l : List Char) : Option (List Char) :=
  match l with
  | [] => none
  | _ :: xs =>
    match matchIdAt l with
    | some id => some id
    | none => scanIdMatch xs

/-- The identifier extracted by matching `/\/(p|reel)\/([A-Za-z0-9_-]+)/`
against a string (a pathname or an anchor's `href`). -/
def matchPostId (s : String) : Option String :=
  (scanIdMatch s.toList).map (fun cs => String.mk cs)

example : matchPostId "/p/ABC123/" = some "ABC123" := by decide
example : matchPostId "https://x/reel/Z_9-q?c=1" = some "Z_9-q" := by decide
example : matchPostId "/stories/xyz" = none := by decide

/-- The inputs `getPostId(element)` inspects: the current
`window.location.pathname`; the result of `element.closest('article')`
followed by the article's `querySelector('a[href*="/p/"], a[href*="/reel/"]')`
(`none` = no article, `some none` = article without such a link,
`some (some href)` = the first matching link's `href`); and, for the walk
from `element` up to (excluding) `document.body`, each node's own
`querySelector` result in order. -/
structure ElementCtx where
  pathname : String
  articleLink : Option (Option String)
  ancestorLinks : List (Option String)
deriving Repr

/-- The ancestor-walk loop of `getPostId`: at each node, if a candidate link
was found and its `href` matches the pattern, return the id; otherwise move
to the parent; `null` after the loop. -/
def firstChainMatch (links : List (Option String)) : Option String :=
  match links with
  | [] => none
  | some href :: rest =>
    match matchPostId href with
    | some id => some id
    | none => firstChainMatch rest
  | none :: rest => firstChainMatch rest

/-- `getPostId(element)`: match the pattern against the current pathname
first and return its capture on success; else try the enclosing article's
candidate link (falling through when the article, the link, or the match is
absent); else run the ancestor walk; else `null`. -/
def getPostId (ctx : ElementCtx) : Option String :=
  match matchPostId ctx.pathname with
  | some id => some id
  | none =>
    let fromArticle :=
      match ctx.articleLink with
      | some (some href) => matchPostId href
      | _ => none
    match fromArticle with
    | some id => some id
    | none => firstChainMatch ctx.ancestorLinks

example :
    getPostId ⟨"/reel/AAA", some (some "https://x/p/BBB/"), [some "https://x/p/CCC/"]⟩ =
      some "AAA" := by decide

example :
    getPostId ⟨"/", some (some "https://x/p/BBB/"), [some "https://x/p/CCC/"]⟩ =
      some "BBB" := by decide

/-- The per-video data the keyboard handler reads and writes:
`getBoundingClientRect` top and bottom, `paused`, `duration` (`NaN` before
metadata), `currentTime`. -/
structure KeyVideo where
  rectTop : ℚ
  rectBottom : ℚ
  paused : Bool
  duration : JsNum
  currentTime : ℚ
deriving DecidableEq, Repr

/-- The handler's visibility test:
`rect.top < window.innerHeight && rect.bottom > 0`. -/
def keyVideoVisible (v : KeyVideo) (innerHeight : ℚ) : Bool :=
  decide (v.rectTop < innerHeight) && decide (0 < v.rectBottom)

/-- The active-video selection: first visible-and-playing video, else first
visible video. -/
def findActiveVideo (vs : List KeyVideo) (innerHeight : ℚ) : Option Nat :=
  match vs.findIdx? (fun v => keyVideoVisible v innerHeight && !v.paused) with
  | some i => some i
  | none => vs.findIdx? (fun v => keyVideoVisible v innerHeight)

/-- What the keydown listener reads off the event: the target's `tagName`,
its `isContentEditable` flag, and `e.key`. -/
structure KeyEvent where
  targetTag : String
  targetEditable : Bool
  key : String
deriving Repr

/-- The document `keydown` listener: return immediately (no video change, no
`preventDefault`) when the target is an `INPUT`, a `TEXTAREA`, or
content-editable; else on `ArrowLeft`/`ArrowRight` pick the active video
and, when it exists and has a truthy duration, call `preventDefault` and set
`currentTime = Math.max(0, Math.min(duration, currentTime + skip))` with
`skip = ±CONFIG.SEEK_SECONDS`. Returns the updated video list and whether
`preventDefault` was called. -/
def keydownHandler (e : KeyEvent) (vs : List KeyVideo) (innerHeight : ℚ) :
    List KeyVideo × Bool :=
  if e.targetTag = "INPUT" ∨ e.targetTag = "TEXTAREA" ∨ e.targetEditable then
    (vs, false)
  else if e.key = "ArrowLeft" ∨ e.key = "ArrowRight" then
    match findActiveVideo vs innerHeight with
    | none => (vs, false)
    | some i =>
      match vs.get? i with
      | none => (vs, false)
      | some v =>
        if jsTruthyNum v.duration then
          let skip : ℚ :=
            if e.key = "ArrowRight" then CONFIG.SEEK_SECONDS else -CONFIG.SEEK_SECONDS
          let d := v.duration.getD 0
          let v' := { v with currentTime := jsMax 0 (jsMin d (v.currentTime + skip)) }
          (vs.set i v', true)
        else (vs, false)
  else (vs, false)

example :
    keydownHandler ⟨"DIV", false, "ArrowLeft"⟩
      [⟨0, 100, false, some 60, 3⟩] 800 =
      ([⟨0, 100, false, some 60, 0⟩], true) := by with_unfolding_all decide

/-! ## Map and child-list lemmas -/

theorem lookupKey_setKey {α : Type} (l : List (String × α)) (k : String) (v : α) :
    lookupKey (setKey l k v) k = some v := by
  simp [setKey, lookupKey]

theorem lookupKey_eraseKey {α : Type} (l : List (String × α)) (k : String) :
    lookupKey (eraseKey l k) k = none := by
  induction l with
  | nil => rfl
  | cons hd tl ih =>
    obtain ⟨k', v⟩ := hd
    by_cases h : k' = k
    · simpa [eraseKey, h] using ih
    · simpa [eraseKey, lookupKey, h] using ih

/-! ## Claims about the timestamp store (C1, C5, C8) -/

/-- C1, counterexample: with the durable tier available, after
`save("P", 5)` the first `get("P")` hits the in-memory map (which alone is
cleared), and the second `get("P")` still returns `5` from
`chrome.storage.session` — not "not found" as the claim states. -/
theorem timestampStore_second_get_not_none :
    (TimestampStore.get
        (TimestampStore.get
            (TimestampStore.save ⟨[], true, [], []⟩ (some "P") 5)
            (some "P")).2
        (some "P")).1 = some 5 := by
  with_unfolding_all decide

/-- C1, amended: with the durable tier available, after `save(P, t)`
(truthy `P`, `t > 0`) the first `get(P)` returns `t` (from memory), the
second `get(P)` returns `t` again (from the durable tier, whose copy the
memory hit did not clear), and only the third `get(P)` returns "not found" —
retrieval is read-once per tier, not across tiers. -/
theorem timestampStore_save_get_roundtrip (s : TSState) (k : String) (t : ℚ)
    (hk : k ≠ "") (ht : 0 < t) (hc : s.chromeOk = true) :
    (TimestampStore.get (TimestampStore.save s (some k) t) (some k)).1 = some t ∧
    (TimestampStore.get
        (TimestampStore.get (TimestampStore.save s (some k) t) (some k)).2
        (some k)).1 = some t ∧
    (TimestampStore.get
        (TimestampStore.get
            (TimestampStore.get (TimestampStore.save s (some k) t) (some k)).2
            (some k)).2
        (some k)).1 = none := by
  have hsave : TimestampStore.save s (some k) t =
      { timestamps := setKey s.timestamps k t, chromeOk := s.chromeOk,
        chrome := setKey s.chrome ("ts_" ++ k) t, session := s.session } := by
    simp only [TimestampStore.save]
    rw [if_pos ⟨hk, ht⟩]
    simp [hc]
  have h1 : TimestampStore.get
      ({ timestamps := setKey s.timestamps k t, chromeOk := s.chromeOk,
         chrome := setKey s.chrome ("ts_" ++ k) t, session := s.session } : TSState) (some k) =
      (some t,
        { timestamps := eraseKey (setKey s.timestamps k t) k, chromeOk := s.chromeOk,
          chrome := setKey s.chrome ("ts_" ++ k) t, session := s.session }) := by
    simp only [TimestampStore.get, if_neg hk, lookupKey_setKey]
  have h2 : TimestampStore.get
      ({ timestamps := eraseKey (setKey s.timestamps k t) k, chromeOk := s.chromeOk,
         chrome := setKey s.chrome ("ts_" ++ k) t, session := s.session } : TSState) (some k) =
      (some t,
        { timestamps := eraseKey (setKey s.timestamps k t) k, chromeOk := s.chromeOk,
          chrome := eraseKey (setKey s.chrome ("ts_" ++ k) t) ("ts_" ++ k),
          session := s.session }) := by
    simp only [TimestampStore.get, if_neg hk, lookupKey_eraseKey, lookupKey_setKey, hc,
      if_true, ne_eq]
    rw [if_pos ht.ne']
  have h3 : (TimestampStore.get
      ({ timestamps := eraseKey (setKey s.timestamps k t) k, chromeOk := s.chromeOk,
         chrome := eraseKey (setKey s.chrome ("ts_" ++ k) t) ("ts_" ++ k),
         session := s.session } : TSState) (some k)).1 = none := by
    simp only [TimestampStore.get, if_neg hk, lookupKey_eraseKey, hc, if_true]
  rw [hsave, h1, h2]
  exact ⟨rfl, rfl, h3⟩

/-- C1, witness. -/
theorem timestampStore_save_get_roundtrip_w :
    (TimestampStore.get (TimestampStore.save ⟨[], true, [], []⟩ (some "P") 5) (some "P")).1 =
      some 5 ∧
    (TimestampStore.get
        (TimestampStore.get (TimestampStore.save ⟨[], true, [], []⟩ (some "P") 5)
            (some "P")).2
        (some "P")).1 = some 5 ∧
    (TimestampStore.get
        (TimestampStore.get
            (TimestampStore.get (TimestampStore.save ⟨[], true, [], []⟩ (some "P") 5)
                (some "P")).2
            (some "P")).2
        (some "P")).1 = none :=
  timestampStore_save_get_roundtrip ⟨[], true, [], []⟩ "P" 5 (by decide)
    (by with_unfolding_all decide) rfl

/-- C5, counterexample: with memory and the (available) durable tier both
missing the key, `get` returns "not found" even though the fallback
`sessionStorage` tier holds a value for that key — the fallback is not
consulted on a clean durable miss. -/
theorem timestampStore_get_skips_fallback :
    (TimestampStore.get ⟨[], true, [], [("ig_ts_P", 7)]⟩ (some "P")).1 = none ∧
    lookupKey (⟨[], true, [], [("ig_ts_P", 7)]⟩ : TSState).session ("ig_ts_" ++ "P") =
      some 7 := by
  with_unfolding_all decide

/-- C5, amended: the fallback tier is consulted only when the durable tier
throws. When the key misses memory and the durable tier is available and
misses, `get` returns "not found" with the store unchanged, regardless of the
fallback tier's contents; the fallback tier's value is returned (when
present) only when the durable tier is unavailable. -/
theorem timestampStore_get_fallback_on_throw_only (s : TSState) (k : String)
    (hk : k ≠ "") (hm : lookupKey s.timestamps k = none) :
    (s.chromeOk = true → lookupKey s.chrome ("ts_" ++ k) = none →
      TimestampStore.get s (some k) = (none, s)) ∧
    (s.chromeOk = false → ∀ t, lookupKey s.session ("ig_ts_" ++ k) = some t →
      (TimestampStore.get s (some k)).1 = some t) := by
  constructor
  · intro hc hch
    simp [TimestampStore.get, if_neg hk, hm, hc, hch]
  · intro hc t hsess
    simp [TimestampStore.get, if_neg hk, hm, hc, hsess]

/-- C5, witness. -/
theorem timestampStore_get_fallback_on_throw_only_w :
    (TimestampStore.get ⟨[], true, [], [("ig_ts_P", 7)]⟩ (some "P") =
      (none, ⟨[], true, [], [("ig_ts_P", 7)]⟩)) ∧
    (TimestampStore.get ⟨[], false, [], [("ig_ts_P", 7)]⟩ (some "P")).1 = some 7 :=
  ⟨(timestampStore_get_fallback_on_throw_only ⟨[], true, [], [("ig_ts_P", 7)]⟩ "P"
      (by decide) rfl).1 rfl rfl,
   (timestampStore_get_fallback_on_throw_only ⟨[], false, [], [("ig_ts_P", 7)]⟩ "P"
      (by decide) rfl).2 rfl 7 rfl⟩

/-- C8: `save` is a no-op — leaving the in-memory map, the durable tier and
the fallback tier unchanged — whenever the postId is falsy (`null` or the
empty string) or `currentTime ≤ 0`. -/
theorem timestampStore_save_noop (s : TSState) (postId : Option String) (t : ℚ)
    (h : t ≤ 0 ∨ postId = none ∨ postId = some "") :
    TimestampStore.save s postId t = s := by
  rcases h with h | h | h
  · cases postId with
    | none => rfl
    | some k =>
      simp only [TimestampStore.save]
      rw [if_neg]
      rintro ⟨-, hlt⟩
      exact absurd hlt h.not_lt
  · subst h; rfl
  · subst h
    simp only [TimestampStore.save]
    rw [if_neg]
    rintro ⟨hne, -⟩
    exact hne rfl

/-! ## Child-list lemmas and claims about enhancement and cleanup (C4, C9) -/

theorem insertBeforeNode_append (pre l : List DomNode) (n t : DomNode)
    (h : t ∉ pre) :
    insertBeforeNode (pre ++ l) n t = pre ++ insertBeforeNode l n t := by
  induction pre with
  | nil => rfl
  | cons x xs ih =>
    simp only [List.mem_cons, not_or] at h
    have hx : ¬(x = t) := fun he => h.1 he.symm
    simp [insertBeforeNode, hx, ih h.2]

theorem insertBeforeNode_cons_self (l : List DomNode) (n t : DomNode) :
    insertBeforeNode (t :: l) n t = n :: t :: l := by
  simp [insertBeforeNode]

theorem removeNode_append (pre l : List DomNode) (t : DomNode) (h : t ∉ pre) :
    removeNode (pre ++ l) t = pre ++ removeNode l t := by
  induction pre with
  | nil => rfl
  | cons x xs ih =>
    simp only [List.mem_cons, not_or] at h
    have hx : ¬(x = t) := fun he => h.1 he.symm
    simp [removeNode, hx, ih h.2]

theorem countNode_append (a b : List DomNode) (t : DomNode) :
    countNode (a ++ b) t = countNode a t + countNode b t := by
  induction a with
  | nil => simp [countNode]
  | cons x xs ih => simp [countNode, ih, Nat.add_assoc]

theorem countNode_eq_zero {l : List DomNode} {t : DomNode} (h : t ∉ l) :
    countNode l t = 0 := by
  induction l with
  | nil => rfl
  | cons x xs ih =>
    simp only [List.mem_cons, not_or] at h
    have hx : ¬(x = t) := fun he => h.1 he.symm
    simp [countNode, hx, ih h.2]

theorem getVideoContainer_igEnhanced (s : EnhState) :
    (getVideoContainer s).igEnhanced = s.igEnhanced := by
  by_cases h : videoParentIsWrapper s
  · simp [getVideoContainer, h]
  · simp [getVideoContainer, h]

theorem enhanceVideo_igEnhanced (s : EnhState) : (enhanceVideo s).igEnhanced = true := by
  by_cases h : s.igEnhanced
  · simp [enhanceVideo, h]
  · simp only [Bool.not_eq_true] at h
    simp [enhanceVideo, h, getVideoContainer_igEnhanced]

theorem enhanceVideo_enhanceVideo (s : EnhState) :
    enhanceVideo (enhanceVideo s) = enhanceVideo s := by
  conv_lhs => rw [enhanceVideo]
  rw [if_pos (enhanceVideo_igEnhanced s)]

/-- Enhancement of a fresh (unmarked, unwrapped) video: the wrapper replaces
the video in the original parent, and the wrapper's children are the video
followed by the controls overlay. -/
theorem enhanceVideo_fresh (pre post : List DomNode) (ca : Bool)
    (hv : DomNode.video ∉ pre) :
    enhanceVideo ⟨pre ++ DomNode.video :: post, [], false, ca⟩ =
      ⟨pre ++ DomNode.wrapper :: post, [DomNode.video, DomNode.overlay], true, false⟩ := by
  have hgc : getVideoContainer ⟨pre ++ DomNode.video :: post, [], true, ca⟩ =
      ⟨pre ++ DomNode.wrapper :: post, [DomNode.video], true, ca⟩ := by
    rw [getVideoContainer, if_neg (by simp [videoParentIsWrapper])]
    rw [insertBeforeNode_append _ _ _ _ hv, insertBeforeNode_cons_self,
      removeNode_append _ _ _ hv]
    simp [removeNode]
  simp only [enhanceVideo]
  rw [if_neg (by simp)]
  simp only [hgc]
  rfl

/-- Cleanup of an enhanced video: the overlay is detached, the video is
re-inserted at the wrapper's former position, and the wrapper is removed. -/
theorem cleanupVideo_enhanced (pre post : List DomNode) (ca : Bool)
    (hw : DomNode.wrapper ∉ pre) :
    cleanupVideo ⟨pre ++ DomNode.wrapper :: post, [DomNode.video, DomNode.overlay], true, ca⟩ =
      ⟨pre ++ DomNode.video :: post, [], true, true⟩ := by
  simp only [cleanupVideo]
  rw [if_pos (show DomNode.overlay ∈ [DomNode.video, DomNode.overlay] by decide)]
  simp only [show removeNode [DomNode.video, DomNode.overlay] DomNode.overlay =
    [DomNode.video] from rfl]
  rw [if_pos (by simp [videoParentIsWrapper])]
  rw [insertBeforeNode_append _ _ _ _ hw, insertBeforeNode_cons_self,
    removeNode_append _ _ _ hw]
  simp [removeNode]

/-- C4: enhancing is idempotent — a second `enhanceVideo` call on any state
is a no-op (the processed marker short-circuits it); from a fresh video, one
(or two) calls leave exactly one overlay node and exactly one wrapper node in
the DOM around the video; and `getVideoContainer` on an already-wrapped video
returns the existing wrapper without touching the DOM. -/
theorem enhanceVideo_idempotent (pre post : List DomNode)
    (hv : DomNode.video ∉ pre)
    (hw : DomNode.wrapper ∉ pre ∧ DomNode.wrapper ∉ post)
    (ho : DomNode.overlay ∉ pre ∧ DomNode.overlay ∉ post) :
    (∀ s : EnhState, enhanceVideo (enhanceVideo s) = enhanceVideo s) ∧
    countNode
        (enhanceVideo ⟨pre ++ DomNode.video :: post, [], false, false⟩).origChildren
        DomNode.overlay +
      countNode
        (enhanceVideo ⟨pre ++ DomNode.video :: post, [], false, false⟩).wrapperChildren
        DomNode.overlay = 1 ∧
    countNode
        (enhanceVideo ⟨pre ++ DomNode.video :: post, [], false, false⟩).origChildren
        DomNode.wrapper +
      countNode
        (enhanceVideo ⟨pre ++ DomNode.video :: post, [], false, false⟩).wrapperChildren
        DomNode.wrapper = 1 ∧
    (∀ s : EnhState, videoParentIsWrapper s = true → getVideoContainer s = s) := by
  refine ⟨fun s => enhanceVideo_enhanceVideo s, ?_, ?_, fun s hs => ?_⟩
  · rw [enhanceVideo_fresh _ _ _ hv]
    simp [countNode_append, countNode_eq_zero ho.1, countNode_eq_zero ho.2, countNode]
  · rw [enhanceVideo_fresh _ _ _ hv]
    simp [countNode_append, countNode_eq_zero hw.1, countNode_eq_zero hw.2, countNode]
  · simp [getVideoContainer, hs]

/-- C4, witness. -/
theorem enhanceVideo_idempotent_w :
    (enhanceVideo (enhanceVideo ⟨[DomNode.host 0, DomNode.video, DomNode.host 1], [], false,
        false⟩) =
      enhanceVideo ⟨[DomNode.host 0, DomNode.video, DomNode.host 1], [], false, false⟩) ∧
    countNode
        (enhanceVideo ⟨[DomNode.host 0] ++ DomNode.video :: [DomNode.host 1], [], false,
          false⟩).origChildren DomNode.overlay +
      countNode
        (enhanceVideo ⟨[DomNode.host 0] ++ DomNode.video :: [DomNode.host 1], [], false,
          false⟩).wrapperChildren DomNode.overlay = 1 :=
  ⟨(enhanceVideo_idempotent [DomNode.host 0] [DomNode.host 1] (by decide)
      ⟨by decide, by decide⟩ ⟨by decide, by decide⟩).1 _,
   (enhanceVideo_idempotent [DomNode.host 0] [DomNode.host 1] (by decide)
      ⟨by decide, by decide⟩ ⟨by decide, by decide⟩).2.1⟩

/-- C9: enhance followed by the attached cleanup is a structural round-trip:
from a fresh video among arbitrary siblings, `cleanupVideo ∘ enhanceVideo`
restores the original parent's child list exactly (the video back at the
wrapper's former position, wrapper and overlay gone) and leaves the overlay's
`AbortController` aborted. -/
theorem cleanup_restores_structure (pre post : List DomNode)
    (hv : DomNode.video ∉ pre) (hw : DomNode.wrapper ∉ pre) :
    cleanupVideo (enhanceVideo ⟨pre ++ DomNode.video :: post, [], false, false⟩) =
      ⟨pre ++ DomNode.video :: post, [], true, true⟩ := by
  rw [enhanceVideo_fresh _ _ _ hv, cleanupVideo_enhanced _ _ _ hw]

/-- C9, witness. -/
theorem cleanup_restores_structure_w :
    cleanupVideo
        (enhanceVideo ⟨[DomNode.host 0] ++ DomNode.video :: [DomNode.host 1], [], false,
          false⟩) =
      ⟨[DomNode.host 0] ++ DomNode.video :: [DomNode.host 1], [], true, true⟩ :=
  cleanup_restores_structure [DomNode.host 0] [DomNode.host 1] (by decide) (by decide)

/-! ## Claims about the overlay volume control and preferences (C2, C6) -/

/-- C2, counterexample: with the video previously muted (muted, volume 0),
dragging the volume slider to `1/2 > 0` sets `muted` to `false` — the muted
state does not stay unchanged under the volume control. -/
theorem volumeInput_unmutes_on_positive :
    (0 : ℚ) < 1 / 2 ∧
    ((volumeInputHandler ⟨true, 0⟩ Preferences.defaults (1 / 2)).1).muted = false := by
  with_unfolding_all decide

/-- C2, amended: the volume control writes `muted := (volume == 0)`
unconditionally — setting volume to exactly 0 sets `muted = true`, and
setting volume to any nonzero value sets `muted = false` regardless of the
previous muted state; volume and the resulting muted flag are both persisted
to Preferences, and the mute toggle (independently) flips the muted flag and
persists it. -/
theorem volumeInput_mute_coupling (v : AVState) (p : Preferences) (q : ℚ) :
    (q = 0 →
      (volumeInputHandler v p q).1.muted = true ∧
      (volumeInputHandler v p q).2.muted = true) ∧
    (q ≠ 0 →
      (volumeInputHandler v p q).1.muted = false ∧
      (volumeInputHandler v p q).2.muted = false) ∧
    (volumeInputHandler v p q).1.volume = q ∧
    (volumeInputHandler v p q).2.volume = some q ∧
    (muteBtnHandler v p).1.muted = !v.muted ∧
    (muteBtnHandler v p).2.muted = !v.muted := by
  refine ⟨fun h => ?_, fun h => ?_, rfl, rfl, rfl, rfl⟩
  · simp [volumeInputHandler, h]
  · simp [volumeInputHandler, h]

/-- C2, witness. -/
theorem volumeInput_mute_coupling_w :
    (volumeInputHandler ⟨true, 0⟩ Preferences.defaults 0).1.muted = true ∧
    (volumeInputHandler ⟨true, 0⟩ Preferences.defaults (1 / 2)).1.muted = false :=
  ⟨((volumeInput_mute_coupling ⟨true, 0⟩ Preferences.defaults 0).1 rfl).1,
   ((volumeInput_mute_coupling ⟨true, 0⟩ Preferences.defaults (1 / 2)).2.1
      (by with_unfolding_all decide)).1⟩

/-- C6, counterexample: with a malformed stored muted string (`"garbage"`)
and a non-numeric stored volume string (`"xyz"`), `load` does not fall back
to the defaults `muted = true`, `volume = 1`: it adopts `muted = false` and
`volume = NaN`. -/
theorem preferences_load_no_default_fallback :
    (Preferences.load Preferences.defaults (some "garbage") (some "xyz")).muted ≠ true ∧
    (Preferences.load Preferences.defaults (some "garbage") (some "xyz")).volume ≠
      some 1 := by
  with_unfolding_all decide

/-- C6, amended: a present stored muted string sets `muted` to the result of
the string comparison with `"true"` — so a malformed muted string yields
`muted = false`, not the default — and a present stored volume string that
does not parse as a number yields `volume = NaN` (`none`), not the default;
only an absent key keeps the compiled-in default. -/
theorem preferences_load_malformed (p : Preferences) (m v : String)
    (hm : m ≠ "true") (hv : parseFloat v = none) :
    (Preferences.load p (some m) (some v)).muted = false ∧
    (Preferences.load p (some m) (some v)).volume = none ∧
    (Preferences.load p none none) = p := by
  refine ⟨?_, ?_, rfl⟩
  · simp [Preferences.load, hm, hv]
  · simp [Preferences.load, hv]

/-- C6, witness. -/
theorem preferences_load_malformed_w :
    (Preferences.load Preferences.defaults (some "garbage") (some "xyz")).muted = false ∧
    (Preferences.load Preferences.defaults (some "garbage") (some "xyz")).volume = none ∧
    (Preferences.load Preferences.defaults none none) = Preferences.defaults :=
  preferences_load_malformed Preferences.defaults "garbage" "xyz" (by decide) (by decide)

/-! ## Claims about the timestamp-restore seek (C3) -/

/-- C3, counterexample: with duration `D = 1/4 > 0` (shorter than
`SEEK_END_BUFFER`) and saved time `T = 1 > 0`, the restore path writes
`min(1, 1/4 - 1/2) = -1/4`, a negative position — the claim's "never
negative" fails. -/
theorem seekToSaved_negative_on_short_video :
    (0 : ℚ) < 1 / 4 ∧ (0 : ℚ) < 1 ∧
    seekToSaved 1 (some (1 / 4)) 1 0 = -(1 / 4) ∧ (-(1 / 4) : ℚ) < 0 := by
  with_unfolding_all decide

/-- C3, amended: for every metadata-ready video (`readyState ≥ 1`) with
duration `D > 0` and saved time `T > 0`, the written position equals
`min(T, D − SEEK_END_BUFFER)` and never exceeds `D − SEEK_END_BUFFER`; it is
never negative when `D ≥ SEEK_END_BUFFER`, and it is negative whenever
`D < SEEK_END_BUFFER`. -/
theorem seekToSaved_clamped (rs : Nat) (D T ct : ℚ)
    (hrs : 1 ≤ rs) (hT : 0 < T) (hD : 0 < D) :
    seekToSaved rs (some D) T ct = min T (D - CONFIG.SEEK_END_BUFFER) ∧
    seekToSaved rs (some D) T ct ≤ D - CONFIG.SEEK_END_BUFFER ∧
    (CONFIG.SEEK_END_BUFFER ≤ D → 0 ≤ seekToSaved rs (some D) T ct) ∧
    (D < CONFIG.SEEK_END_BUFFER → seekToSaved rs (some D) T ct < 0) := by
  have hval : seekToSaved rs (some D) T ct = min T (D - CONFIG.SEEK_END_BUFFER) := by
    simp only [seekToSaved, restoredPosition, jsMin_eq_min, jsTruthyNum, Option.getD_some]
    rw [if_pos ⟨hrs, by simpa [bne_iff_ne] using hD.ne'⟩]
  refine ⟨hval, ?_, fun hb => ?_, fun hb => ?_⟩
  · rw [hval]; exact min_le_right _ _
  · rw [hval]
    exact le_min hT.le (by simpa [sub_nonneg] using hb)
  · rw [hval]
    exact lt_of_le_of_lt (min_le_right _ _) (sub_neg.mpr hb)

/-- C3, witness (both regimes: a long video seeks to a non-negative clamped
position, a video shorter than the buffer yields a negative position). -/
theorem seekToSaved_clamped_w :
    (seekToSaved 1 (some 10) 3 0 = min 3 (10 - CONFIG.SEEK_END_BUFFER) ∧
      (0 : ℚ) ≤ seekToSaved 1 (some 10) 3 0) ∧
    seekToSaved 1 (some (1 / 4)) 1 0 < 0 :=
  ⟨⟨(seekToSaved_clamped 1 10 3 0 (by decide) (by with_unfolding_all decide)
        (by with_unfolding_all decide)).1,
    (seekToSaved_clamped 1 10 3 0 (by decide) (by with_unfolding_all decide)
        (by with_unfolding_all decide)).2.2.1 (by with_unfolding_all decide)⟩,
   (seekToSaved_clamped 1 (1 / 4) 1 0 (by decide) (by with_unfolding_all decide)
        (by with_unfolding_all decide)).2.2.2 (by with_unfolding_all decide)⟩

/-- C8, witness. -/
theorem timestampStore_save_noop_w :
    TimestampStore.save ⟨[("Q", 1)], true, [], []⟩ (some "P") (-3) =
      ⟨[("Q", 1)], true, [], []⟩ ∧
    TimestampStore.save ⟨[("Q", 1)], true, [], []⟩ (some "") 5 =
      ⟨[("Q", 1)], true, [], []⟩ ∧
    TimestampStore.save ⟨[("Q", 1)], true, [], []⟩ none 5 =
      ⟨[("Q", 1)], true, [], []⟩ :=
  ⟨timestampStore_save_noop _ _ _ (Or.inl (by with_unfolding_all decide)),
   timestampStore_save_noop _ _ _ (Or.inr (Or.inr rfl)),
   timestampStore_save_noop _ _ _ (Or.inr (Or.inl rfl))⟩

/-! ## Claim about identifier-resolution precedence (C7) -/

/-- C7: when the current navigation path contains a post/reel identifier,
`getPostId` returns the identifier parsed from the path, even when a matching
structural link is present in the enclosing article or along the ancestor
walk — the location match wins, and the link strategies are reached only when
the path does not match. -/
theorem getPostId_location_wins (ctx : ElementCtx) (id : String)
    (hpath : matchPostId ctx.pathname = some id)
    (_hstruct :
      (∃ href, ctx.articleLink = some (some href) ∧ (matchPostId href).isSome = true) ∨
      (∃ href, some href ∈ ctx.ancestorLinks ∧ (matchPostId href).isSome = true)) :
    getPostId ctx = some id := by
  simp [getPostId, hpath]

/-- C7, witness. -/
theorem getPostId_location_wins_w :
    getPostId ⟨"/reel/AAA", some (some "https://x/p/BBB/"), [some "https://x/p/CCC/"]⟩ =
      some "AAA" :=
  getPostId_location_wins
    ⟨"/reel/AAA", some (some "https://x/p/BBB/"), [some "https://x/p/CCC/"]⟩ "AAA"
    (by decide) (Or.inl ⟨"https://x/p/BBB/", rfl, by decide⟩)

/-! ## Claim about the keyboard seek handler guard (C10) -/

/-- C10: a keydown whose target is an `INPUT` element, a `TEXTAREA` element,
or a contentEditable element makes the handler return immediately: every
video's `currentTime` is untouched and `preventDefault` is not called, for
any key (in particular both arrow keys). -/
theorem keydownHandler_ignores_editable (e : KeyEvent) (vs : List KeyVideo)
    (innerHeight : ℚ)
    (h : e.targetTag = "INPUT" ∨ e.targetTag = "TEXTAREA" ∨ e.targetEditable = true) :
    keydownHandler e vs innerHeight = (vs, false) := by
  rw [keydownHandler, if_pos h]

/-- C10, witness. -/
theorem keydownHandler_ignores_editable_w :
    keydownHandler ⟨"INPUT", false, "ArrowLeft"⟩ [⟨0, 100, false, some 60, 3⟩] 800 =
      ([⟨0, 100, false, some 60, 3⟩], false) ∧
    keydownHandler ⟨"DIV", true, "ArrowRight"⟩ [⟨0, 100, false, some 60, 3⟩] 800 =
      ([⟨0, 100, false, some 60, 3⟩], false) :=
  ⟨keydownHandler_ignores_editable _ _ _ (Or.inl rfl),
   keydownHandler_ignores_editable _ _ _ (Or.inr (Or.inr rfl))⟩
